import Mathlib

/-!
Shallow embedding of the Flask text-intelligence gateway (`app.py`).

The embedding models the pure request-handling logic of the server:

* `validate_text_input` — body validation (exactly one of `text`/`url`);
* `build_deepgram_options` — query-parameter to SDK-options mapping;
* `format_error_response` — the canonical error envelope;
* `classify_fault` / `handle_fault` — the `except` block of the analyze
  route, which classifies a remote fault by substring sniffing on the
  lowercased fault message;
* `analyze` — the `POST /text-intelligence/analyze` route, parameterised
  by the opaque remote client (`deepgram.read.v1.text.analyze`), recording
  whether (and with which arguments) the remote call was made;
* `health` — the `GET /health` route;
* `get_metadata` — the `GET /api/metadata` route, parameterised by the
  state of the `deepgram.toml` file.

JSON values are modelled by `JVal`; Python dicts by association lists in
insertion order, which is also the order `jsonify` serialises them in.
Python truthiness of an optional string value (`body.get('text')`) is
modelled by `truthy`: the value is present and is not the empty string.
-/

/-- JSON-like values as produced by the server (strings, booleans, objects). -/
inductive JVal where
  | str (s : String)
  | bool (b : Bool)
  | obj (fields : List (String × JVal))

/-- Field lookup on a JSON object (`none` on non-objects). -/
def JVal.getField (j : JVal) (k : String) : Option JVal :=
  match j with
  | .obj fields => fields.lookup k
  | _ => none

/-- Substring test on lists of characters: does the list contain `pat` as a
contiguous infix?  This models Python's `pat in s`. -/
def infixOf (pat : List Char) : List Char → Bool
  | [] => pat.isEmpty
  | c :: rest => pat.isPrefixOf (c :: rest) || infixOf pat rest

/-- Python's `pat in s` substring containment on strings. -/
def strContains (s pat : String) : Bool :=
  infixOf pat.toList s.toList

/-- Python's `s.lower()` (ASCII case folding, character by character). -/
def strLower (s : String) : String :=
  String.mk (s.data.map Char.toLower)

/-- Python's whitespace test for `str.strip()` (the ASCII whitespace
characters stripped by default). -/
def isPyWhitespace (c : Char) : Bool :=
  c == ' ' || c == '\t' || c == '\n' || c == '\r' || c == '\x0b' || c == '\x0c'

/-- Python's `s.strip()`: remove leading and trailing whitespace. -/
def pyStrip (s : String) : String :=
  String.mk (((s.data.dropWhile isPyWhitespace).reverse.dropWhile isPyWhitespace).reverse)

/-- Python truthiness of `body.get(key)` for a string-valued optional field:
the key is present and its value is a non-empty string. -/
def truthy : Option String → Bool
  | none => false
  | some s => !(s == "")

/-- Python's `s.startswith(pre)`: prefix test, character by character. -/
def strStartsWith (s pre : String) : Bool :=
  pre.toList.isPrefixOf s.toList

/-- The accepted URL scheme check from `validate_text_input`:
`url.startswith(('http://', 'https://'))`. -/
def urlOk (u : String) : Bool :=
  strStartsWith u "http://" || strStartsWith u "https://"

/-- The parsed JSON request body, restricted to the two fields the server
inspects.  `none` models an absent key; `some s` a key mapped to string `s`. -/
structure Body where
  text : Option String
  url : Option String

/-- Query parameters of the analyze route, restricted to the five keys the
server inspects (`request.args.get` returns `none` for an absent key). -/
structure QueryParams where
  language : Option String
  summarize : Option String
  topics : Option String
  sentiment : Option String
  intents : Option String

/-- The empty query-string. -/
def emptyQ : QueryParams :=
  { language := none, summarize := none, topics := none, sentiment := none, intents := none }

/-- `validate_text_input(body)` from `app.py`: returns
`(request_dict, error_message)` where the request dict is `none` exactly when
validation fails.  The request dict is the one-entry dict passed to the SDK. -/
def validate_text_input (body : Body) : Option (List (String × String)) × Option String :=
  let text := body.text
  let url := body.url
  if !(truthy text) && !(truthy url) then
    (none, some "Request must contain either 'text' or 'url' field")
  else if truthy text && truthy url then
    (none, some "Request must contain either 'text' or 'url', not both")
  else if truthy url then
    let u := url.getD ""
    if !(urlOk u) then
      (none, some "Invalid URL format")
    else
      (some [("url", u)], none)
  else
    let t := text.getD ""
    if pyStrip t == "" then
      (none, some "Text content cannot be empty")
    else
      (some [("text", t)], none)

/-- The boolean feature flags appended to the options dict by
`build_deepgram_options` (the `topics` / `sentiment` / `intents` checks). -/
def addBoolFeatures (q : QueryParams) (options : List (String × JVal)) : List (String × JVal) :=
  let o1 := if q.topics == some "true" then options ++ [("topics", JVal.bool true)] else options
  let o2 := if q.sentiment == some "true" then o1 ++ [("sentiment", JVal.bool true)] else o1
  let o3 := if q.intents == some "true" then o2 ++ [("intents", JVal.bool true)] else o2
  o3

/-- `build_deepgram_options(query_params)` from `app.py`: the options dict in
insertion order, or the deprecation error for `summarize=v1`. -/
def build_deepgram_options (q : QueryParams) : Except String (List (String × JVal)) :=
  let options : List (String × JVal) := [("language", JVal.str (q.language.getD "en"))]
  if q.summarize == some "true" then
    Except.ok (addBoolFeatures q (options ++ [("summarize", JVal.bool true)]))
  else if q.summarize == some "v2" then
    Except.ok (addBoolFeatures q (options ++ [("summarize", JVal.str "v2")]))
  else if q.summarize == some "v1" then
    Except.error "Summarization v1 is no longer supported. Please use v2 or true."
  else
    Except.ok (addBoolFeatures q options)

/-- `format_error_response(error_type, code, message)` from `app.py`:
the error envelope with exactly the four fields and empty details. -/
def format_error_response (error_type code message : String) : JVal :=
  JVal.obj [("error", JVal.obj
    [("type", JVal.str error_type),
     ("code", JVal.str code),
     ("message", JVal.str message),
     ("details", JVal.obj [])])]

/-- The error-code / status-code selection of the `except` block of the
analyze route: substring tests on the lowercased fault message, in order
`"text"`, `"url"`, `"too long"`, defaulting to `("INVALID_TEXT", 500)`. -/
def classify_fault (msg : String) : String × Nat :=
  let lower := strLower msg
  if strContains lower "text" then ("INVALID_TEXT", 400)
  else if strContains lower "url" then ("INVALID_URL", 400)
  else if strContains lower "too long" then ("TEXT_TOO_LONG", 400)
  else ("INVALID_TEXT", 500)

/-- The full `except` block of the analyze route: the response body and
status for a fault with message `msg`.  The raw message is surfaced only when
the status is 400; on 500 it is replaced by the generic string. -/
def handle_fault (msg : String) : JVal × Nat :=
  let error_code := (classify_fault msg).1
  let status_code := (classify_fault msg).2
  (format_error_response "processing_error" error_code
    (if status_code == 400 then msg else "Text processing failed"), status_code)

/-- Outcome of the opaque remote call `deepgram.read.v1.text.analyze`:
either a structured result (already extracted to a results dict) or a raised
fault carrying a message. -/
inductive RemoteOutcome where
  | ok (results : JVal)
  | exn (msg : String)

/-- The opaque remote analysis client: takes the request dict and the options
dict (the `**options` kwargs) and returns a result or raises. -/
abbrev RemoteFn := List (String × String) → List (String × JVal) → RemoteOutcome

/-- Inbound request to the analyze route: whether the body is JSON
(`request.is_json`), the parsed body, and the query parameters. -/
structure AnalyzeInput where
  is_json : Bool
  body : Body
  args : QueryParams

/-- Result of the analyze route: response body, HTTP status, and a record of
the remote call (`none` when the remote client was never invoked, otherwise
the request dict and options it was invoked with). -/
structure AnalyzeResult where
  body : JVal
  status : Nat
  remote_call : Option (List (String × String) × List (String × JVal))

/-- The `POST /text-intelligence/analyze` route from `app.py`, parameterised
by the opaque remote client. -/
def analyze (remote : RemoteFn) (inp : AnalyzeInput) : AnalyzeResult :=
  if !inp.is_json then
    { body := format_error_response "validation_error" "INVALID_TEXT" "Request body must be JSON",
      status := 400, remote_call := none }
  else
    match validate_text_input inp.body with
    | (_, some error_msg) =>
      { body := format_error_response "validation_error"
          (if strContains (strLower error_msg) "text" then "INVALID_TEXT" else "INVALID_URL")
          error_msg,
        status := 400, remote_call := none }
    | (rd, none) =>
      match build_deepgram_options inp.args with
      | .error error_msg =>
        { body := format_error_response "validation_error" "INVALID_TEXT" error_msg,
          status := 400, remote_call := none }
      | .ok options =>
        let request_dict := rd.getD []
        match remote request_dict options with
        | .ok results =>
          { body := JVal.obj [("results", results)], status := 200,
            remote_call := some (request_dict, options) }
        | .exn msg =>
          let (env, status_code) := handle_fault msg
          { body := env, status := status_code, remote_call := some (request_dict, options) }

/-- The `GET /health` route from `app.py`. -/
def health : JVal × Nat :=
  (JVal.obj [("status", JVal.str "ok"), ("service", JVal.str "text-intelligence")], 200)

/-- State of the `deepgram.toml` file as seen by the metadata route: missing
(`FileNotFoundError`), unreadable/unparsable (generic exception with message),
or parsed into a table of sections. -/
inductive MetadataFileState where
  | missing
  | unreadable (errMsg : String)
  | parsed (config : List (String × JVal))

/-- The `GET /api/metadata` route from `app.py`, parameterised by the file
state. -/
def get_metadata (fs : MetadataFileState) : JVal × Nat :=
  match fs with
  | .missing =>
    (JVal.obj [("error", JVal.str "INTERNAL_SERVER_ERROR"),
               ("message", JVal.str "deepgram.toml file not found")], 500)
  | .unreadable e =>
    (JVal.obj [("error", JVal.str "INTERNAL_SERVER_ERROR"),
               ("message", JVal.str ("Failed to read metadata from deepgram.toml: " ++ e))], 500)
  | .parsed config =>
    match config.lookup "meta" with
    | none =>
      (JVal.obj [("error", JVal.str "INTERNAL_SERVER_ERROR"),
                 ("message", JVal.str "Missing [meta] section in deepgram.toml")], 500)
    | some meta => (meta, 200)

/-- A concrete remote client used by witness theorems: always raises. -/
def remoteStub : RemoteFn := fun _ _ => RemoteOutcome.exn "boom"

/-- Claim C7: `GET /health` always returns exactly
`{"status": "ok", "service": "text-intelligence"}` with status 200,
independent of any other state (the route takes no input). -/
theorem claim_C7_health :
    health = (JVal.obj [("status", JVal.str "ok"),
                        ("service", JVal.str "text-intelligence")], 200) := rfl

/-- Claim C8: for every body and query-parameter map, a non-JSON request to
the analyze route yields HTTP 400 with a `validation_error` envelope of code
`INVALID_TEXT` and message "Request body must be JSON", with the remote
client never invoked; the result does not depend on the body, the query
parameters, or the remote client. -/
theorem claim_C8_not_json (remote : RemoteFn) (body : Body) (args : QueryParams) :
    analyze remote { is_json := false, body := body, args := args } =
      { body := format_error_response "validation_error" "INVALID_TEXT" "Request body must be JSON",
        status := 400, remote_call := none } := rfl

/-- Claim C9: the remote-fault classifier matches substrings on the lowercased
fault message and tests them in the fixed order "text", then "url", then
"too long", taking the first match: any fault message containing "text"
(case-insensitively) is classified `INVALID_TEXT` with status 400 even if it
also contains "url" or "too long", any message containing "url" but not
"text" is classified `INVALID_URL` even if it also contains "too long", and
"too long" alone gives `TEXT_TOO_LONG`. -/
theorem claim_C9_classifier_order (msg : String) :
    (strContains (strLower msg) "text" = true →
      classify_fault msg = ("INVALID_TEXT", 400)) ∧
    (strContains (strLower msg) "text" = false →
      strContains (strLower msg) "url" = true →
      classify_fault msg = ("INVALID_URL", 400)) ∧
    (strContains (strLower msg) "text" = false →
      strContains (strLower msg) "url" = false →
      strContains (strLower msg) "too long" = true →
      classify_fault msg = ("TEXT_TOO_LONG", 400)) := by
  refine ⟨fun h1 => ?_, fun h1 h2 => ?_, fun h1 h2 h3 => ?_⟩ <;>
    simp_all [classify_fault]

/-- Witness for C9 at the message "URL too long": it contains "url" and
"too long" but not "text" once lowercased, and is classified `INVALID_URL`. -/
theorem claim_C9_witness :
    strContains (strLower "URL too long") "text" = false ∧
    strContains (strLower "URL too long") "url" = true ∧
    strContains (strLower "URL too long") "too long" = true ∧
    classify_fault "URL too long" = ("INVALID_URL", 400) :=
  ⟨by decide, by decide, by decide,
    (claim_C9_classifier_order "URL too long").2.1 (by decide) (by decide)⟩

/-- Counterexample to C3 as stated: the fault message "text too long"
contains the substring "too long", yet the classifier assigns code
`INVALID_TEXT` (the "text" branch fires first), not `TEXT_TOO_LONG`, and the
analyze route surfaces that code. -/
theorem claim_C3_counterexample :
    strContains "text too long" "too long" = true ∧
    classify_fault "text too long" = ("INVALID_TEXT", 400) ∧
    ("INVALID_TEXT" : String) ≠ "TEXT_TOO_LONG" ∧
    (analyze (fun _ _ => RemoteOutcome.exn "text too long")
        { is_json := true, body := { text := some "hi", url := none }, args := emptyQ }).body =
      format_error_response "processing_error" "INVALID_TEXT" "text too long" :=
  ⟨by decide, by decide, by decide, rfl⟩

/-- Claim C3 (amended): for every fault raised by the remote call whose
lowercased message contains "too long" but contains neither "text" nor "url"
(the earlier classifier branches), the analyze route returns HTTP 400 with
code `TEXT_TOO_LONG` and the surfaced message equals the fault's message. -/
theorem claim_C3_too_long_fault (msg : String)
    (h1 : strContains (strLower msg) "too long" = true)
    (h2 : strContains (strLower msg) "text" = false)
    (h3 : strContains (strLower msg) "url" = false) :
    handle_fault msg = (format_error_response "processing_error" "TEXT_TOO_LONG" msg, 400) ∧
    ∀ body args rd options, validate_text_input body = (some rd, none) →
      build_deepgram_options args = Except.ok options →
      analyze (fun _ _ => RemoteOutcome.exn msg)
          { is_json := true, body := body, args := args } =
        { body := format_error_response "processing_error" "TEXT_TOO_LONG" msg,
          status := 400, remote_call := some (rd, options) } := by
  have hf : handle_fault msg =
      (format_error_response "processing_error" "TEXT_TOO_LONG" msg, 400) := by
    simp [handle_fault, classify_fault, h1, h2, h3]
  refine ⟨hf, fun body args rd options hv hb => ?_⟩
  simp [analyze, hv, hb, hf]

/-- Witness for C3 (amended) at the message "too long" with body
`{"text": "hi"}` and no query parameters. -/
theorem claim_C3_witness :
    handle_fault "too long" =
      (format_error_response "processing_error" "TEXT_TOO_LONG" "too long", 400) ∧
    analyze (fun _ _ => RemoteOutcome.exn "too long")
        { is_json := true, body := { text := some "hi", url := none }, args := emptyQ } =
      { body := format_error_response "processing_error" "TEXT_TOO_LONG" "too long",
        status := 400,
        remote_call := some ([("text", "hi")], [("language", JVal.str "en")]) } :=
  ⟨(claim_C3_too_long_fault "too long" (by decide) (by decide) (by decide)).1,
   (claim_C3_too_long_fault "too long" (by decide) (by decide) (by decide)).2
     { text := some "hi", url := none } emptyQ
     [("text", "hi")] [("language", JVal.str "en")] rfl rfl⟩

/-- Claim C4: a fault whose (lowercased) message contains none of "text",
"url", "too long" yields HTTP 500 with a `processing_error` envelope of code
`INVALID_TEXT` (the untouched default) and the generic message
"Text processing failed" instead of the fault's message; moreover, on every
500-status fault the generic message is surfaced, and on every 400-status
fault the raw message is surfaced. -/
theorem claim_C4_unrelated_fault (msg : String)
    (h1 : strContains (strLower msg) "text" = false)
    (h2 : strContains (strLower msg) "url" = false)
    (h3 : strContains (strLower msg) "too long" = false) :
    handle_fault msg =
      (format_error_response "processing_error" "INVALID_TEXT" "Text processing failed", 500) ∧
    (∀ m, (handle_fault m).2 = 500 →
      (handle_fault m).1 =
        format_error_response "processing_error" "INVALID_TEXT" "Text processing failed") ∧
    (∀ m, (handle_fault m).2 = 400 →
      ∃ c, (handle_fault m).1 = format_error_response "processing_error" c m) ∧
    (∀ body args rd options, validate_text_input body = (some rd, none) →
      build_deepgram_options args = Except.ok options →
      analyze (fun _ _ => RemoteOutcome.exn msg)
          { is_json := true, body := body, args := args } =
        { body := format_error_response "processing_error" "INVALID_TEXT" "Text processing failed",
          status := 500, remote_call := some (rd, options) }) := by
  have hf : handle_fault msg =
      (format_error_response "processing_error" "INVALID_TEXT" "Text processing failed", 500) := by
    simp [handle_fault, classify_fault, h1, h2, h3]
  refine ⟨hf, fun m hm => ?_, fun m hm => ?_, fun body args rd options hv hb => ?_⟩
  · unfold handle_fault classify_fault at hm ⊢
    cases hb1 : strContains (strLower m) "text" <;>
      cases hb2 : strContains (strLower m) "url" <;>
        cases hb3 : strContains (strLower m) "too long" <;>
          simp_all
  · unfold handle_fault classify_fault at hm ⊢
    cases hb1 : strContains (strLower m) "text" <;>
      cases hb2 : strContains (strLower m) "url" <;>
        cases hb3 : strContains (strLower m) "too long" <;>
          simp_all
    all_goals exact ⟨_, rfl⟩
  · simp [analyze, hv, hb, hf]

/-- Witness for C4 at the message "boom" with body `{"text": "hi"}` and no
query parameters. -/
theorem claim_C4_witness :
    handle_fault "boom" =
      (format_error_response "processing_error" "INVALID_TEXT" "Text processing failed", 500) ∧
    analyze (fun _ _ => RemoteOutcome.exn "boom")
        { is_json := true, body := { text := some "hi", url := none }, args := emptyQ } =
      { body := format_error_response "processing_error" "INVALID_TEXT" "Text processing failed",
        status := 500,
        remote_call := some ([("text", "hi")], [("language", JVal.str "en")]) } :=
  ⟨(claim_C4_unrelated_fault "boom" (by decide) (by decide) (by decide)).1,
   (claim_C4_unrelated_fault "boom" (by decide) (by decide) (by decide)).2.2.2
     { text := some "hi", url := none } emptyQ
     [("text", "hi")] [("language", JVal.str "en")] rfl rfl⟩

/-- Claim C2: the option mapper defaults `language` to "en" when absent;
`summarize=true` yields boolean true, `summarize=v2` yields the string "v2",
`summarize=v1` is rejected with the fixed deprecation message, and any other
value (including absent) leaves `summarize` unset; `topics`, `sentiment`,
`intents` are set to true exactly when their query value is the string
"true"; and with no query parameters the options passed to the remote call
are exactly the one-entry dict `language = "en"`. -/
theorem claim_C2_option_mapping (q : QueryParams) (remote : RemoteFn) :
    (q.summarize = some "v1" →
      build_deepgram_options q =
        Except.error "Summarization v1 is no longer supported. Please use v2 or true.") ∧
    (q.summarize ≠ some "v1" →
      build_deepgram_options q = Except.ok
        ([("language", JVal.str (q.language.getD "en"))] ++
         (if q.summarize = some "true" then [("summarize", JVal.bool true)]
          else if q.summarize = some "v2" then [("summarize", JVal.str "v2")] else []) ++
         (if q.topics = some "true" then [("topics", JVal.bool true)] else []) ++
         (if q.sentiment = some "true" then [("sentiment", JVal.bool true)] else []) ++
         (if q.intents = some "true" then [("intents", JVal.bool true)] else []))) ∧
    (analyze remote
        { is_json := true, body := { text := some "hello world", url := none },
          args := emptyQ }).remote_call =
      some ([("text", "hello world")], [("language", JVal.str "en")]) := by
  have hv : validate_text_input { text := some "hello world", url := none } =
      (some [("text", "hello world")], none) := rfl
  have hb : build_deepgram_options emptyQ = Except.ok [("language", JVal.str "en")] := rfl
  refine ⟨fun h => ?_, fun h => ?_, ?_⟩
  · simp [build_deepgram_options, h]
  · by_cases h1 : q.summarize = some "true" <;>
      by_cases h2 : q.summarize = some "v2" <;>
        simp [build_deepgram_options, addBoolFeatures, h, h1, h2] <;>
          split_ifs <;> simp
  · cases hr : remote [("text", "hello world")] [("language", JVal.str "en")] <;>
      simp [analyze, hv, hb, hr]

/-- Witness for C2: `summarize=v1` is rejected; `summarize=true&topics=true`
yields exactly `language="en"`, `summarize=true`, `topics=true`; and with no
query parameters the remote call receives exactly `language="en"`. -/
theorem claim_C2_witness :
    build_deepgram_options
        { language := none, summarize := some "v1", topics := none,
          sentiment := none, intents := none } =
      Except.error "Summarization v1 is no longer supported. Please use v2 or true." ∧
    build_deepgram_options
        { language := none, summarize := some "true", topics := some "true",
          sentiment := none, intents := none } =
      Except.ok [("language", JVal.str "en"), ("summarize", JVal.bool true),
                 ("topics", JVal.bool true)] ∧
    (analyze remoteStub
        { is_json := true, body := { text := some "hello world", url := none },
          args := emptyQ }).remote_call =
      some ([("text", "hello world")], [("language", JVal.str "en")]) :=
  ⟨(claim_C2_option_mapping
      { language := none, summarize := some "v1", topics := none,
        sentiment := none, intents := none } remoteStub).1 rfl,
   by
    have h := (claim_C2_option_mapping
      { language := none, summarize := some "true", topics := some "true",
        sentiment := none, intents := none } remoteStub).2.1 (by decide)
    simpa using h,
   (claim_C2_option_mapping emptyQ remoteStub).2.2⟩

/-- Claim C6: the metadata route returns the parsed `meta` section with
status 200 when the configuration file exists and contains one; when the file
is missing or the `meta` section is absent it returns status 500 with an
object whose `error` field is "INTERNAL_SERVER_ERROR". -/
theorem claim_C6_metadata (config : List (String × JVal)) (m : JVal) :
    (config.lookup "meta" = some m →
      get_metadata (MetadataFileState.parsed config) = (m, 200)) ∧
    ((get_metadata MetadataFileState.missing).2 = 500 ∧
      (get_metadata MetadataFileState.missing).1.getField "error" =
        some (JVal.str "INTERNAL_SERVER_ERROR")) ∧
    (config.lookup "meta" = none →
      (get_metadata (MetadataFileState.parsed config)).2 = 500 ∧
      (get_metadata (MetadataFileState.parsed config)).1.getField "error" =
        some (JVal.str "INTERNAL_SERVER_ERROR")) := by
  refine ⟨fun h => ?_, ⟨rfl, rfl⟩, fun h => ?_⟩
  · simp [get_metadata, h]
  · simp [get_metadata, h, JVal.getField]

/-- Witness for C6 at a one-section configuration containing `meta`, and at
a configuration without `meta`. -/
theorem claim_C6_witness :
    get_metadata (MetadataFileState.parsed [("meta", JVal.obj [("title", JVal.str "demo")])]) =
      (JVal.obj [("title", JVal.str "demo")], 200) ∧
    (get_metadata (MetadataFileState.parsed [])).2 = 500 :=
  ⟨(claim_C6_metadata [("meta", JVal.obj [("title", JVal.str "demo")])]
      (JVal.obj [("title", JVal.str "demo")])).1 rfl,
   ((claim_C6_metadata [] (JVal.obj [])).2.2 rfl).1⟩

/-- Counterexample to C1 as stated, reading "present" as key-present: in the
body with `text` mapped to the empty string and `url` mapped to a well-formed
URL both fields are present, yet validation succeeds (the code tests Python
truthiness, so an empty-string value counts as absent); likewise a body whose
only field is `url` mapped to the empty string (which lacks an accepted
scheme prefix) is rejected with code `INVALID_TEXT`, not `INVALID_URL`. -/
theorem claim_C1_counterexample :
    (Body.mk (some "") (some "http://example.com")).text.isSome = true ∧
    (Body.mk (some "") (some "http://example.com")).url.isSome = true ∧
    validate_text_input (Body.mk (some "") (some "http://example.com")) =
      (some [("url", "http://example.com")], none) ∧
    (analyze remoteStub
        { is_json := true, body := Body.mk none (some ""), args := emptyQ }).body =
      format_error_response "validation_error" "INVALID_TEXT"
        "Request must contain either 'text' or 'url' field" :=
  ⟨rfl, rfl, by decide, rfl⟩

/-- Claim C1 (amended, with "present" strengthened to "present with a
non-empty value", i.e. Python-truthy): validation succeeds and produces an
AnalysisRequest iff exactly one of `text`/`url` is truthy, a truthy `text`
is non-empty after stripping whitespace, and a truthy `url` starts with
`http://` or `https://`; otherwise the analyze route returns HTTP 400 with a
`validation_error` envelope whose code is `INVALID_TEXT` when neither field
is truthy, when both are truthy, or when `text` is whitespace-only, and
`INVALID_URL` when the truthy `url` lacks an accepted scheme prefix. -/
theorem claim_C1_validation (body : Body) (remote : RemoteFn) (args : QueryParams) :
    ((validate_text_input body).2 = none ↔
      ((truthy body.text = true ∧ truthy body.url = false ∧
          pyStrip (body.text.getD "") ≠ "") ∨
       (truthy body.url = true ∧ truthy body.text = false ∧
          urlOk (body.url.getD "") = true))) ∧
    ((validate_text_input body).2 = none →
      (validate_text_input body).1 =
        some (if truthy body.url then [("url", body.url.getD "")]
              else [("text", body.text.getD "")])) ∧
    (truthy body.text = false → truthy body.url = false →
      analyze remote { is_json := true, body := body, args := args } =
        { body := format_error_response "validation_error" "INVALID_TEXT"
            "Request must contain either 'text' or 'url' field",
          status := 400, remote_call := none }) ∧
    (truthy body.text = true → truthy body.url = true →
      analyze remote { is_json := true, body := body, args := args } =
        { body := format_error_response "validation_error" "INVALID_TEXT"
            "Request must contain either 'text' or 'url', not both",
          status := 400, remote_call := none }) ∧
    (truthy body.text = true → truthy body.url = false →
      pyStrip (body.text.getD "") = "" →
      analyze remote { is_json := true, body := body, args := args } =
        { body := format_error_response "validation_error" "INVALID_TEXT"
            "Text content cannot be empty",
          status := 400, remote_call := none }) ∧
    (truthy body.url = true → truthy body.text = false →
      urlOk (body.url.getD "") = false →
      analyze remote { is_json := true, body := body, args := args } =
        { body := format_error_response "validation_error" "INVALID_URL"
            "Invalid URL format",
          status := 400, remote_call := none }) := by
  have c1 : strContains
      (strLower "Request must contain either 'text' or 'url' field") "text" = true := by decide
  have c2 : strContains
      (strLower "Request must contain either 'text' or 'url', not both") "text" = true := by decide
  have c3 : strContains (strLower "Invalid URL format") "text" = false := by decide
  have c4 : strContains (strLower "Text content cannot be empty") "text" = true := by decide
  refine ⟨?_, ?_, fun ht hu => ?_, fun ht hu => ?_, fun ht hu hs => ?_, fun hu ht hw => ?_⟩
  · unfold validate_text_input
    cases ht : truthy body.text <;> cases hu : truthy body.url <;> simp [ht, hu]
    · cases hw : urlOk (body.url.getD "") <;> simp [hw]
    · cases hs : pyStrip (body.text.getD "") == "" <;> simp_all
  · unfold validate_text_input
    cases ht : truthy body.text <;> cases hu : truthy body.url <;> simp [ht, hu]
    · cases hw : urlOk (body.url.getD "") <;> simp [hw]
    · cases hs : pyStrip (body.text.getD "") == "" <;> simp_all
  · have hval : validate_text_input body =
        (none, some "Request must contain either 'text' or 'url' field") := by
      unfold validate_text_input; simp [ht, hu]
    simp [analyze, hval, c1]
  · have hval : validate_text_input body =
        (none, some "Request must contain either 'text' or 'url', not both") := by
      unfold validate_text_input; simp [ht, hu]
    simp [analyze, hval, c2]
  · have hval : validate_text_input body = (none, some "Text content cannot be empty") := by
      unfold validate_text_input; simp [ht, hu, hs]
    simp [analyze, hval, c4]
  · have hval : validate_text_input body = (none, some "Invalid URL format") := by
      unfold validate_text_input; simp [ht, hu, hw]
    simp [analyze, hval, c3]

/-- Witness for C1 (amended): a whitespace-only `text` is rejected with
`INVALID_TEXT`, and a valid `text` passes validation. -/
theorem claim_C1_witness :
    analyze remoteStub
        { is_json := true, body := Body.mk (some "   ") none, args := emptyQ } =
      { body := format_error_response "validation_error" "INVALID_TEXT"
          "Text content cannot be empty",
        status := 400, remote_call := none } ∧
    (validate_text_input (Body.mk (some "hello") none)).2 = none :=
  ⟨(claim_C1_validation (Body.mk (some "   ") none) remoteStub emptyQ).2.2.2.2.1
      (by decide) (by decide) (by decide),
   ((claim_C1_validation (Body.mk (some "hello") none) remoteStub emptyQ).1).2
      (Or.inl ⟨by decide, by decide, by decide⟩)⟩

/-- Claim C5: whenever input validation or option mapping fails on a JSON
request to the analyze route, the remote client is never invoked and the
response is HTTP 400 with a `validation_error` envelope. -/
theorem claim_C5_no_network_on_validation_failure (remote : RemoteFn) (inp : AnalyzeInput)
    (hjson : inp.is_json = true)
    (hfail : (validate_text_input inp.body).2 ≠ none ∨
             ∃ e, build_deepgram_options inp.args = Except.error e) :
    (analyze remote inp).remote_call = none ∧
    (analyze remote inp).status = 400 ∧
    ∃ c m, (analyze remote inp).body = format_error_response "validation_error" c m := by
  rcases hv : validate_text_input inp.body with ⟨rd, err⟩
  cases err with
  | some msg =>
    refine ⟨?_, ?_, ?_⟩ <;> simp [analyze, hjson, hv]
  | none =>
    rcases hfail with hfail | ⟨e, he⟩
    · rw [hv] at hfail
      simp at hfail
    · refine ⟨?_, ?_, ?_⟩ <;> simp [analyze, hjson, hv, he]

/-- Witness for C5 at a JSON request whose body has neither `text` nor `url`
(validation fails), and at one where the body is valid but the options are
rejected (`summarize=v1`). -/
theorem claim_C5_witness :
    ((analyze remoteStub
        { is_json := true, body := Body.mk none none, args := emptyQ }).remote_call = none ∧
      (analyze remoteStub
        { is_json := true, body := Body.mk none none, args := emptyQ }).status = 400 ∧
      ∃ c m, (analyze remoteStub
        { is_json := true, body := Body.mk none none, args := emptyQ }).body =
          format_error_response "validation_error" c m) ∧
    ((analyze remoteStub
        { is_json := true, body := Body.mk (some "hi") none,
          args := { language := none, summarize := some "v1", topics := none,
                    sentiment := none, intents := none } }).remote_call = none ∧
      (analyze remoteStub
        { is_json := true, body := Body.mk (some "hi") none,
          args := { language := none, summarize := some "v1", topics := none,
                    sentiment := none, intents := none } }).status = 400 ∧
      ∃ c m, (analyze remoteStub
        { is_json := true, body := Body.mk (some "hi") none,
          args := { language := none, summarize := some "v1", topics := none,
                    sentiment := none, intents := none } }).body =
          format_error_response "validation_error" c m) :=
  ⟨claim_C5_no_network_on_validation_failure remoteStub
      { is_json := true, body := Body.mk none none, args := emptyQ } rfl
      (Or.inl (by decide)),
   claim_C5_no_network_on_validation_failure remoteStub
      { is_json := true, body := Body.mk (some "hi") none,
        args := { language := none, summarize := some "v1", topics := none,
                  sentiment := none, intents := none } } rfl
      (Or.inr ⟨"Summarization v1 is no longer supported. Please use v2 or true.", rfl⟩)⟩

/-- Claim C10: every error response of the analyze route (any response whose
status is not 200, covering both `validation_error` and `processing_error`
outcomes) is an object with exactly the field `error`, whose value is an
object with exactly the fields `type`, `code`, `message`, `details` in that
order, where `details` is always the empty object and `type` is either
"validation_error" or "processing_error". -/
theorem claim_C10_error_envelope_shape (remote : RemoteFn) (inp : AnalyzeInput)
    (h : (analyze remote inp).status ≠ 200) :
    ∃ t c m, (analyze remote inp).body =
        JVal.obj [("error", JVal.obj
          [("type", JVal.str t), ("code", JVal.str c),
           ("message", JVal.str m), ("details", JVal.obj [])])] ∧
      (t = "validation_error" ∨ t = "processing_error") := by
  cases hj : inp.is_json with
  | false =>
    refine ⟨"validation_error", "INVALID_TEXT", "Request body must be JSON", ?_, Or.inl rfl⟩
    simp [analyze, hj, format_error_response]
  | true =>
    rcases hv : validate_text_input inp.body with ⟨rd, err⟩
    cases err with
    | some msg =>
      refine ⟨"validation_error",
        if strContains (strLower msg) "text" then "INVALID_TEXT" else "INVALID_URL",
        msg, ?_, Or.inl rfl⟩
      simp [analyze, hj, hv, format_error_response]
    | none =>
      rcases hb : build_deepgram_options inp.args with e | options
      · refine ⟨"validation_error", "INVALID_TEXT", e, ?_, Or.inl rfl⟩
        simp [analyze, hj, hv, hb, format_error_response]
      · cases hr : remote (rd.getD []) options with
        | ok results =>
          exfalso
          apply h
          simp [analyze, hj, hv, hb, hr]
        | exn msg =>
          refine ⟨"processing_error", (classify_fault msg).1,
            if (classify_fault msg).2 == 400 then msg else "Text processing failed",
            ?_, Or.inr rfl⟩
          simp [analyze, hj, hv, hb, hr, handle_fault, format_error_response]

/-- Witness for C10 at a non-JSON request: the envelope has exactly the four
fields with empty details. -/
theorem claim_C10_witness :
    (analyze remoteStub { is_json := false, body := Body.mk none none, args := emptyQ }).status
      ≠ 200 ∧
    ∃ t c m,
      (analyze remoteStub { is_json := false, body := Body.mk none none, args := emptyQ }).body =
          JVal.obj [("error", JVal.obj
            [("type", JVal.str t), ("code", JVal.str c),
             ("message", JVal.str m), ("details", JVal.obj [])])] ∧
        (t = "validation_error" ∨ t = "processing_error") :=
  ⟨by decide,
   claim_C10_error_envelope_shape remoteStub
     { is_json := false, body := Body.mk none none, args := emptyQ } (by decide)⟩
